import Mathlib

/-!
Verification development for the CyberHeaders analysis and scoring engine.

The definitions below are a shallow embedding of the Python source in
`api/utils/headers.py`, `api/utils/ssl.py`, `api/utils/wordpress.py` and
`api/utils/analysis.py`.  External effects (the HTTP fetch, the TLS probe,
the DNS probe, the narrative generator) are passed in as explicit outcome
values; everything the engine itself computes is embedded as executable
Lean functions.
-/

namespace CyberHeaders

/-! String primitives mirroring the Python string operations used by the
analyzer.  Strings are handled through their character lists. -/

/-- Boolean prefix test on character lists: the first list is a prefix of
the second. -/
def startsWithChars : List Char → List Char → Bool
  | [], _ => true
  | _ :: _, [] => false
  | p :: ps, c :: cs => p == c && startsWithChars ps cs

/-- Boolean contiguous-substring test on character lists, mirroring the
Python membership test on strings. -/
def subChars (pat : List Char) : List Char → Bool
  | [] => startsWithChars pat []
  | c :: cs => startsWithChars pat (c :: cs) || subChars pat cs

/-- Python substring membership test `sub in s`. -/
def strIn (sub s : String) : Bool := subChars sub.data s.data

/-- Python `str.lower()` (character-wise lowering, adequate for the ASCII
header material the analyzer handles). -/
def strLower (s : String) : String := String.mk (s.data.map Char.toLower)

/-! The header mapping.  The Python code receives a dict with lower-cased
keys; we embed it as an association list of key/value pairs, looked up by
first match. -/

/-- A captured set of HTTP response headers: lower-cased name to value. -/
abbrev HeaderSet := List (String × String)

/-- Python membership test on the header dict. -/
def hasHeader (hs : HeaderSet) (k : String) : Bool :=
  hs.any (fun p => p.1 == k)

/-- Python `headers.get(k, d)`. -/
def getHeaderD (hs : HeaderSet) (k d : String) : String :=
  match hs.find? (fun p => p.1 == k) with
  | some p => p.2
  | none => d

/-- Python `headers[k]`; in the source it is only evaluated under a
presence guard, so the default value is never observed. -/
def getHeader (hs : HeaderSet) (k : String) : String := getHeaderD hs k ""

/-- Python `headers.values()`. -/
def headerValues (hs : HeaderSet) : List String := hs.map Prod.snd

/-! Embedding of `api/utils/headers.py`. -/

/-- Result record of `analyze_headers`.  The `wordpress_issues` field embeds
the optional dict key the orchestrator adds after CMS detection. -/
structure HeaderAnalysis where
  missing_essential : List String
  deprecated : List String
  insecure : List String
  csp_issues : List String
  cookie_issues : List String
  cors_issues : List String
  hsts_issues : List String
  additional_headers : List (String × Bool)
  owasp_compliance : List (String × Bool)
  wordpress_issues : Option (List String)
deriving Repr, DecidableEq

/-- The canonical essential-header list of `analyze_headers`. -/
def essential_headers : List String :=
  ["content-security-policy",
   "x-content-type-options",
   "x-frame-options",
   "strict-transport-security",
   "x-xss-protection",
   "referrer-policy",
   "permissions-policy",
   "cross-origin-opener-policy",
   "cross-origin-embedder-policy",
   "cross-origin-resource-policy"]

/-- The canonical deprecated-header list of `analyze_headers`. -/
def deprecated_headers : List String :=
  ["public-key-pins",
   "x-aspnet-version",
   "x-powered-by",
   "server",
   "x-webkit-csp",
   "x-content-security-policy"]

/-- The three CSP directives `analyze_csp` flags when present. -/
def csp_flagged_directives : List String :=
  ["unsafe-inline", "unsafe-eval", "unsafe-hashes"]

/-- The four CSP directives `analyze_csp` flags when absent. -/
def csp_important_directives : List String :=
  ["default-src", "script-src", "object-src", "base-uri"]

/-- The overly permissive CSP source tokens `analyze_csp` flags. -/
def csp_permissive_sources : List String :=
  ["*", "\x27unsafe-inline\x27", "data:", "http:", "ftp:"]

/-- Embedding of `analyze_csp`: the three sub-checks run in order and
append their issues. -/
def analyze_csp (csp_header : String) : List String :=
  (csp_flagged_directives.filter (fun d => strIn d csp_header)).map
      (fun d => s!"CSP contains unsafe directive: {d}")
  ++ (csp_important_directives.filter (fun d => !(strIn d csp_header))).map
      (fun d => s!"CSP missing important directive: {d}")
  ++ (csp_permissive_sources.filter (fun src => strIn src csp_header)).map
      (fun src => s!"CSP contains overly permissive source: {src}")

/-- Python cookie splitting: split on a semicolon and strip each part. -/
def splitCookies (cookie_header : String) : List String :=
  (cookie_header.splitOn ";").map String.trim

/-- Embedding of `analyze_cookies`. -/
def analyze_cookies (cookie_header : String) : List String :=
  let cookies := splitCookies cookie_header
  let secureAny := cookies.any (fun c => strIn "secure" (strLower c))
  let issues1 := if !secureAny then ["Missing Secure flag"] else []
  let issues2 :=
    if !(cookies.any (fun c => strIn "httponly" (strLower c))) then
      ["Missing HttpOnly flag"]
    else []
  let samesite := cookies.find? (fun c => strIn "samesite" (strLower c))
  let issues3 :=
    match samesite with
    | none => ["Missing SameSite attribute"]
    | some c =>
      if strIn "samesite=none" (strLower c) && !secureAny then
        ["SameSite=None without Secure flag"]
      else []
  let issues4 :=
    if cookies.any (fun c => strIn "domain=" (strLower c)) then
      ["Overly broad domain setting"]
    else []
  issues1 ++ issues2 ++ issues3 ++ issues4

/-- Embedding of `analyze_cors`. -/
def analyze_cors (acao_header : String) : List String :=
  if acao_header == "*" then
    ["Overly permissive CORS policy: Access-Control-Allow-Origin: *"]
  else []

/-- One-or-more digit run at the head of a character list (the greedy
digit group of the HSTS regular expression). -/
def takeDigits : List Char → List Char
  | [] => []
  | c :: cs => if c.isDigit then c :: takeDigits cs else []

/-- Numeric value of a digit run. -/
def digitsToNat (ds : List Char) : Nat :=
  ds.foldl (fun acc c => acc * 10 + (c.toNat - 48)) 0

/-- Attempted match of the pattern at one position: the literal
characters of the text must follow, then at least one digit. -/
def maxAgeAt (l : List Char) : Option Nat :=
  if startsWithChars "max-age=".data l then
    let ds := takeDigits (l.drop 8)
    if ds.isEmpty then none else some (digitsToNat ds)
  else none

/-- Leftmost match of the regular-expression search for the max-age value
in `analyze_hsts`; the digit group is greedy. -/
def findMaxAge : List Char → Option Nat
  | [] => none
  | c :: cs =>
    match maxAgeAt (c :: cs) with
    | some n => some n
    | none => findMaxAge cs

/-- Embedding of `analyze_hsts`.  When the header mentions max-age but the
regular expression finds no numeric value, the numeric check contributes no
issue. -/
def analyze_hsts (hsts_header : String) : List String :=
  let issues1 :=
    if !(strIn "max-age" hsts_header) then
      ["HSTS missing max-age directive"]
    else
      match findMaxAge hsts_header.data with
      | some max_age =>
        if max_age < 31536000 then
          [s!"HSTS max-age too short: {max_age} (should be at least 31536000)"]
        else []
      | none => []
  let issues2 :=
    if !(strIn "includesubdomains" (strLower hsts_header)) then
      ["HSTS missing includeSubDomains directive"]
    else []
  issues1 ++ issues2

/-- Embedding of `check_additional_headers`: an ordered record of named
boolean presence checks. -/
def check_additional_headers (headers : HeaderSet) : List (String × Bool) :=
  [("clear_site_data", hasHeader headers "clear-site-data"),
   ("report_to", hasHeader headers "report-to"),
   ("feature_policy", hasHeader headers "feature-policy"),
   ("expect_ct", hasHeader headers "expect-ct")]

/-- Embedding of `check_owasp_compliance`. -/
def check_owasp_compliance (headers : HeaderSet) : List (String × Bool) :=
  [("content_security_policy", hasHeader headers "content-security-policy"),
   ("x_content_type_options",
      strLower (getHeaderD headers "x-content-type-options" "") == "nosniff"),
   ("x_frame_options", hasHeader headers "x-frame-options"),
   ("strict_transport_security", hasHeader headers "strict-transport-security"),
   ("x_xss_protection", hasHeader headers "x-xss-protection"),
   ("referrer_policy", hasHeader headers "referrer-policy"),
   ("permissions_policy", hasHeader headers "permissions-policy"),
   ("cross_origin_opener_policy", hasHeader headers "cross-origin-opener-policy"),
   ("cross_origin_embedder_policy", hasHeader headers "cross-origin-embedder-policy"),
   ("cross_origin_resource_policy", hasHeader headers "cross-origin-resource-policy")]

/-- Embedding of `analyze_headers`: the header rule engine. -/
def analyze_headers (headers : HeaderSet) : HeaderAnalysis :=
  { missing_essential := essential_headers.filter (fun h => !(hasHeader headers h))
    deprecated := deprecated_headers.filter (fun h => hasHeader headers h)
    insecure := []
    csp_issues :=
      if hasHeader headers "content-security-policy" then
        analyze_csp (getHeader headers "content-security-policy")
      else []
    cookie_issues :=
      if hasHeader headers "set-cookie" then
        analyze_cookies (getHeader headers "set-cookie")
      else []
    cors_issues :=
      if hasHeader headers "access-control-allow-origin" then
        analyze_cors (getHeader headers "access-control-allow-origin")
      else []
    hsts_issues :=
      if hasHeader headers "strict-transport-security" then
        analyze_hsts (getHeader headers "strict-transport-security")
      else []
    additional_headers := check_additional_headers headers
    owasp_compliance := check_owasp_compliance headers
    wordpress_issues := none }

/-! Embedding of `api/utils/ssl.py`.  The network interaction of the probe
is an explicit input: either the transport fails with an error string
(the exception text caught by the handler), or it yields the session facts
read off the TLS socket. -/

/-- Session facts read from a completed TLS handshake. -/
structure TLSProbeFacts where
  shared_ciphers : List String
  compression : Bool
  ocsp : Bool
deriving Repr, DecidableEq

/-- The banned cipher substrings of `ssl_scan`. -/
def weak_cipher_substrings : List String := ["rc4", "des", "3des", "md5"]

/-- Result record of `ssl_scan`, restricted to the fields the scoring,
recommendation and categorization code reads (certificate and protocol
data are pass-through display fields). -/
structure TLSAnalysis where
  weak_ciphers : List String
  compression_enabled : Bool
  ocsp_stapling : Bool
  preload_status : String
  error : Option String
deriving Repr, DecidableEq

/-- Embedding of `ssl_scan`: on a transport failure the initial result
record keeps its defaults and gains the error string; on success the weak
ciphers are those shared ciphers whose lowered name contains a banned
substring, and the compression flag is passed through. -/
def ssl_scan (probe : Except String TLSProbeFacts) : TLSAnalysis :=
  match probe with
  | .error e =>
    { weak_ciphers := []
      compression_enabled := false
      ocsp_stapling := false
      preload_status := "unknown"
      error := some e }
  | .ok facts =>
    { weak_ciphers :=
        facts.shared_ciphers.filter
          (fun c => weak_cipher_substrings.any (fun w => strIn w (strLower c)))
      compression_enabled := facts.compression
      ocsp_stapling := facts.ocsp
      preload_status := "unknown"
      error := none }

/-! Embedding of `api/utils/wordpress.py`. -/

/-- Embedding of `check_wordpress`: the five detection signals, joined by
disjunction. -/
def check_wordpress (headers : HeaderSet) (body : String) : Bool :=
  (hasHeader headers "x-powered-by"
      && strIn "wordpress" (strLower (getHeader headers "x-powered-by")))
  || (hasHeader headers "link" && strIn "wp-json" (strLower (getHeader headers "link")))
  || (headerValues headers).any (fun v => strIn "wordpress" (strLower v))
  || strIn "wp-content" (strLower body)
  || strIn "wp-includes" (strLower body)

/-- A character the version group of the leak patterns accepts: a digit or
a dot. -/
def isVerChar (c : Char) : Bool := c.isDigit || c == '.'

/-- Greedy run of version characters at the head of a character list. -/
def takeVer : List Char → List Char
  | [] => []
  | c :: cs => if isVerChar c then c :: takeVer cs else []

/-- Attempted case-insensitive match of a literal followed by a nonempty
version group at one position; yields the whole matched text (original
case) and the group. -/
def matchVerAt (lit : List Char) (l : List Char) : Option (List Char × List Char) :=
  if startsWithChars lit (l.map Char.toLower) then
    let run := takeVer (l.drop lit.length)
    if run.isEmpty then none else some (l.take lit.length ++ run, run)
  else none

/-- Leftmost such match in a character list, mirroring the
case-insensitive regular-expression search of the version-leak scan. -/
def searchVer (lit : List Char) : List Char → Option (List Char × List Char)
  | [] => none
  | c :: cs =>
    match matchVerAt lit (c :: cs) with
    | some r => some r
    | none => searchVer lit cs

/-- The version-leak scan of `analyze_wordpress_headers`: the three
patterns are tried in order and the scan stops at the first match.  The
first pattern has no group, so the whole match is reported; the other two
report their group. -/
def wordpress_version_issues (body : String) : List String :=
  match searchVer "wordpress ".data body.data with
  | some (whole, _) =>
    let v := String.mk whole
    [s!"WordPress version {v} exposed in HTML"]
  | none =>
    match searchVer "wp-includes/js/wp-embed.js?ver=".data body.data with
    | some (_, grp) =>
      let v := String.mk grp
      [s!"WordPress version {v} exposed in HTML"]
    | none =>
      match searchVer "wp-includes/css/dist/block-library/style.min.css?ver=".data body.data with
      | some (_, grp) =>
        let v := String.mk grp
        [s!"WordPress version {v} exposed in HTML"]
      | none => []

/-- The three headers `analyze_wordpress_headers` reports when exposed. -/
def wordpress_header_list : List String := ["x-wp-cron", "x-redirect-by", "x-pingback"]

/-- Embedding of `analyze_wordpress_headers`. -/
def analyze_wordpress_headers (headers : HeaderSet) (body : String) : List String :=
  (wordpress_header_list.filter (fun h => hasHeader headers h)).map
      (fun h => s!"WordPress header exposed: {h}")
  ++ (if hasHeader headers "x-pingback" then
        ["XML-RPC pingback endpoint exposed (consider disabling if not needed)"]
      else [])
  ++ (if hasHeader headers "link" && strIn "wp-json" (getHeader headers "link") then
        ["WordPress REST API endpoint exposed (consider restricting access if not needed)"]
      else [])
  ++ (if (headerValues headers).any (fun v => strIn "admin-ajax.php" v) then
        ["WordPress admin-ajax.php endpoint exposed (consider rate limiting)"]
      else [])
  ++ wordpress_version_issues body

/-! Embedding of `calculate_security_score` from `api/utils/analysis.py`.
The running total and the per-category budgets are plain integers; the
sequence of deductions follows the source line by line, and both the total
and every category are clamped at zero at the end. -/

/-- The per-category budget record returned next to the total score. -/
structure ScoreBreakdown where
  headers : Int
  ssl : Int
  cookies : Int
  cors : Int
  wordpress : Int
deriving Repr, DecidableEq

/-- Embedding of `calculate_security_score`.  The weak-cipher deduction
runs only when the weak-cipher list is nonempty (Python truthiness) and
the CMS deduction only when the orchestrator added the CMS issue key; both
guards are embedded as a zero penalty in the other case. -/
def calculate_security_score (ha : HeaderAnalysis) (sa : TLSAnalysis) :
    Int × ScoreBreakdown :=
  let missing_penalty : Int := (ha.missing_essential.length : Int) * 3
  let score1 : Int := 100 - missing_penalty
  let bHeaders1 : Int := 40 - missing_penalty
  let deprecated_penalty : Int := (ha.deprecated.length : Int) * 2
  let score2 := score1 - deprecated_penalty
  let bHeaders2 := bHeaders1 - deprecated_penalty
  let score3 := score2 - (ha.csp_issues.length : Int) * 2
  let score4 := score3 - (ha.cookie_issues.length : Int) * 2
  let score5 := score4 - (ha.cors_issues.length : Int) * 2
  let score6 := score5 - (ha.hsts_issues.length : Int) * 2
  let ssl_penalty : Int :=
    if !sa.weak_ciphers.isEmpty then (sa.weak_ciphers.length : Int) * 3 else 0
  let score7 := score6 - ssl_penalty
  let bSsl1 : Int := 30 - ssl_penalty
  let score8 := if sa.compression_enabled then score7 - 10 else score7
  let bSsl2 := if sa.compression_enabled then bSsl1 - 10 else bSsl1
  let wp_penalty : Int :=
    match ha.wordpress_issues with
    | some issues => (issues.length : Int) * 2
    | none => 0
  let score9 := score8 - wp_penalty
  let bWordpress1 : Int := 5 - wp_penalty
  (max score9 0,
   { headers := max bHeaders2 0
     ssl := max bSsl2 0
     cookies := max (15 : Int) 0
     cors := max (10 : Int) 0
     wordpress := max bWordpress1 0 })

/-! Embedding of `generate_recommendations` and `categorize_checks`. -/

/-- Embedding of `generate_recommendations`: sections appended in the
source's order. -/
def generate_recommendations (ha : HeaderAnalysis) (sa : TLSAnalysis) : List String :=
  (ha.missing_essential.map (fun h => s!"Add missing security header: {h}"))
  ++ (ha.deprecated.map (fun h => s!"Remove deprecated header: {h}"))
  ++ (ha.csp_issues.map (fun i => s!"CSP issue: {i}"))
  ++ (ha.cookie_issues.map (fun i => s!"Cookie security issue: {i}"))
  ++ (ha.cors_issues.map (fun i => s!"CORS issue: {i}"))
  ++ (ha.hsts_issues.map (fun i => s!"HSTS issue: {i}"))
  ++ (match ha.wordpress_issues with
      | some issues => issues.map (fun i => s!"WordPress issue: {i}")
      | none => [])
  ++ (if !sa.weak_ciphers.isEmpty then
        ["Disable weak cipher suites: " ++ String.intercalate ", " sa.weak_ciphers]
      else [])
  ++ (if sa.compression_enabled then
        ["Disable TLS compression (CRIME vulnerability risk)"]
      else [])
  ++ (match sa.error with
      | some e => [s!"Fix SSL error: {e}"]
      | none => [])

/-- The four-header subset `categorize_checks` reports on. -/
def categorize_essential_headers : List String :=
  ["content-security-policy",
   "x-content-type-options",
   "x-frame-options",
   "strict-transport-security"]

/-- Embedding of `categorize_checks`. -/
def categorize_checks (ha : HeaderAnalysis) (sa : TLSAnalysis) :
    List String × List String :=
  let passed :=
    (categorize_essential_headers.filter
        (fun h => !(ha.missing_essential.contains h))).map
        (fun h => s!"Header present: {h}")
    ++ (if sa.weak_ciphers.isEmpty then ["No weak cipher suites"] else [])
    ++ (if !sa.compression_enabled then ["TLS compression disabled"] else [])
  let failed :=
    (categorize_essential_headers.filter
        (fun h => ha.missing_essential.contains h)).map
        (fun h => s!"Header missing: {h}")
    ++ (if !sa.weak_ciphers.isEmpty then
          ["Weak ciphers found: " ++ String.intercalate ", " sa.weak_ciphers]
        else [])
    ++ (if sa.compression_enabled then
          ["TLS compression enabled (CRIME vulnerability risk)"]
        else [])
  (passed, failed)

/-! Embedding of the orchestrator `analyze_website` and its error model. -/

/-- The two exception kinds the analysis module raises. -/
inductive CoreError where
  | requestFailed (msg : String)
  | analysisError (msg : String)
deriving Repr, DecidableEq

/-- Python `str(e)` on a core exception: its message. -/
def CoreError.message : CoreError → String
  | .requestFailed m => m
  | .analysisError m => m

/-- Outcome of the underlying HTTP transaction seen by
`fetch_headers_and_content`: either the client raised (transport failure,
timeout, and so on) with an exception text, or a response with headers, a
body and a status code came back. -/
inductive FetchOutcome where
  | failure (cause : String)
  | success (headers : HeaderSet) (body : String) (status_code : Nat)
deriving Repr, DecidableEq

/-- Exception text of the status-error exception `raise_for_status` throws
on a non-2xx response (the exact wording belongs to the HTTP library; only
the status enters it). -/
def statusErrorText (status_code : Nat) : String :=
  s!"HTTP status error {status_code}"

/-- Embedding of `fetch_headers_and_content`: a client failure or a
non-2xx status raises the request-failure error carrying the underlying
exception text; on success the header names are lower-cased. -/
def fetch_headers_and_content (net : FetchOutcome) :
    Except CoreError (HeaderSet × String) :=
  match net with
  | .failure cause =>
    .error (.requestFailed ("Request to target website failed: " ++ cause))
  | .success hs body status_code =>
    if 200 ≤ status_code ∧ status_code < 300 then
      .ok (hs.map (fun p => (strLower p.1, p.2)), body)
    else
      .error (.requestFailed
        ("Request to target website failed: " ++ statusErrorText status_code))

/-- DNS facts returned by the external deep-scan probe. -/
abbrev DNSFacts := List (String × String)

/-- The assembled response record of `analyze_website`. -/
structure ResponseData where
  url : String
  status_code : Nat
  security_score : Int
  score_breakdown : ScoreBreakdown
  headers : HeaderSet
  analysis : HeaderAnalysis
  ssl : TLSAnalysis
  dns : DNSFacts
  recommendations : List String
  passed_checks : List String
  failed_checks : List String
  risk_level : String
  timestamp : String
  gemini_analysis : Option String
deriving Repr, DecidableEq

/-- The risk-tier expression of `analyze_website`. -/
def risk_level_of (security_score : Int) : String :=
  if security_score < 40 then "High"
  else if security_score < 70 then "Medium"
  else "Low"

/-- Embedding of `analyze_website`.  External effects are inputs: the
HTTP transaction outcome, the TLS probe outcome, the DNS probe result used
when `deep_scan` is set, the narrative-generator outcome used when
`include_gemini_analysis` is set, and the wall-clock timestamp.  The
enclosing handler of the source turns any exception escaping the body into
an analysis error wrapping the exception text; the only raising step of
the embedded body is the mandatory fetch. -/
def analyze_website (url : String) (net : FetchOutcome)
    (sslProbe : Except String TLSProbeFacts) (dnsResult : DNSFacts)
    (geminiResult : Except String String) (timestamp : String)
    (include_gemini_analysis deep_scan : Bool) :
    Except CoreError ResponseData :=
  match fetch_headers_and_content net with
  | .error e => .error (.analysisError ("Analysis failed: " ++ e.message))
  | .ok (headers, body) =>
    let header_analysis0 := analyze_headers headers
    let ssl_analysis := ssl_scan sslProbe
    let dns_analysis := if deep_scan then dnsResult else []
    let is_wordpress := check_wordpress headers body
    let header_analysis :=
      if is_wordpress then
        { header_analysis0 with
            wordpress_issues := some (analyze_wordpress_headers headers body) }
      else header_analysis0
    let scored := calculate_security_score header_analysis ssl_analysis
    let security_score := scored.1
    let score_breakdown := scored.2
    let rl := risk_level_of security_score
    let recommendations := generate_recommendations header_analysis ssl_analysis
    let checks := categorize_checks header_analysis ssl_analysis
    let gemini : Option String :=
      if include_gemini_analysis then
        some (match geminiResult with
              | .ok s => s
              | .error e => "Gemini analysis failed: " ++ e)
      else none
    .ok { url := url
          status_code := 200
          security_score := security_score
          score_breakdown := score_breakdown
          headers := headers
          analysis := header_analysis
          ssl := ssl_analysis
          dns := dns_analysis
          recommendations := recommendations
          passed_checks := checks.1
          failed_checks := checks.2
          risk_level := rl
          timestamp := timestamp
          gemini_analysis := gemini }

/-! State-threaded embedding of the header rule engine.  Every operation
the Python code performs on the (mutable) header dict is a read; the
threaded form returns the mapping after each operation next to its result,
so that non-mutation of the input is a provable statement rather than a
modelling assumption. -/

/-- Membership read on the header mapping, with the mapping after the
operation. -/
def readMem (hs : HeaderSet) (k : String) : Bool × HeaderSet :=
  (hasHeader hs k, hs)

/-- Value read on the header mapping, with the mapping after the
operation. -/
def readVal (hs : HeaderSet) (k d : String) : String × HeaderSet :=
  (getHeaderD hs k d, hs)

/-- State-threaded form of the essential-header comprehension: one
membership read per canonical name, keeping the absent ones. -/
def filterMissingSt : HeaderSet → List String → List String × HeaderSet
  | hs, [] => ([], hs)
  | hs, h :: t =>
    let r := readMem hs h
    let rest := filterMissingSt r.2 t
    (if r.1 then rest.1 else h :: rest.1, rest.2)

/-- State-threaded form of the deprecated-header comprehension, keeping
the present ones. -/
def filterPresentSt : HeaderSet → List String → List String × HeaderSet
  | hs, [] => ([], hs)
  | hs, h :: t =>
    let r := readMem hs h
    let rest := filterPresentSt r.2 t
    (if r.1 then h :: rest.1 else rest.1, rest.2)

/-- State-threaded form of `check_additional_headers`. -/
def check_additional_headers_st (hs0 : HeaderSet) : List (String × Bool) × HeaderSet :=
  let r1 := readMem hs0 "clear-site-data"
  let r2 := readMem r1.2 "report-to"
  let r3 := readMem r2.2 "feature-policy"
  let r4 := readMem r3.2 "expect-ct"
  ([("clear_site_data", r1.1), ("report_to", r2.1),
    ("feature_policy", r3.1), ("expect_ct", r4.1)], r4.2)

/-- State-threaded form of `check_owasp_compliance`. -/
def check_owasp_compliance_st (hs0 : HeaderSet) : List (String × Bool) × HeaderSet :=
  let r1 := readMem hs0 "content-security-policy"
  let r2 := readVal r1.2 "x-content-type-options" ""
  let r3 := readMem r2.2 "x-frame-options"
  let r4 := readMem r3.2 "strict-transport-security"
  let r5 := readMem r4.2 "x-xss-protection"
  let r6 := readMem r5.2 "referrer-policy"
  let r7 := readMem r6.2 "permissions-policy"
  let r8 := readMem r7.2 "cross-origin-opener-policy"
  let r9 := readMem r8.2 "cross-origin-embedder-policy"
  let r10 := readMem r9.2 "cross-origin-resource-policy"
  ([("content_security_policy", r1.1),
    ("x_content_type_options", strLower r2.1 == "nosniff"),
    ("x_frame_options", r3.1),
    ("strict_transport_security", r4.1),
    ("x_xss_protection", r5.1),
    ("referrer_policy", r6.1),
    ("permissions_policy", r7.1),
    ("cross_origin_opener_policy", r8.1),
    ("cross_origin_embedder_policy", r9.1),
    ("cross_origin_resource_policy", r10.1)], r10.2)

/-- One guarded sub-analysis of `analyze_headers`, threaded: a membership
read, then (only when present) a value read feeding the given pure
sub-analyzer of the immutable string value. -/
def guardedSt (hs : HeaderSet) (k : String) (f : String → List String) :
    List String × HeaderSet :=
  let r := readMem hs k
  if r.1 then
    let v := readVal r.2 k ""
    (f v.1, v.2)
  else ([], r.2)

/-- State-threaded form of `analyze_headers`, performing the source's
reads in source order and returning the mapping after the whole run. -/
def analyze_headers_st (hs0 : HeaderSet) : HeaderAnalysis × HeaderSet :=
  let a := check_additional_headers_st hs0
  let o := check_owasp_compliance_st a.2
  let m := filterMissingSt o.2 essential_headers
  let d := filterPresentSt m.2 deprecated_headers
  let csp := guardedSt d.2 "content-security-policy" analyze_csp
  let ck := guardedSt csp.2 "set-cookie" analyze_cookies
  let co := guardedSt ck.2 "access-control-allow-origin" analyze_cors
  let hh := guardedSt co.2 "strict-transport-security" analyze_hsts
  ({ missing_essential := m.1
     deprecated := d.1
     insecure := []
     csp_issues := csp.1
     cookie_issues := ck.1
     cors_issues := co.1
     hsts_issues := hh.1
     additional_headers := a.1
     owasp_compliance := o.1
     wordpress_issues := none }, hh.2)

/-! Specification-side recommendation sections, one definition per section
of the spec's fixed order, to be compared with the source's
`generate_recommendations`. -/

/-- Spec section: missing-header remediations. -/
def spec_rec_missing (ha : HeaderAnalysis) : List String :=
  ha.missing_essential.map (fun h => s!"Add missing security header: {h}")

/-- Spec section: deprecated-header removals. -/
def spec_rec_deprecated (ha : HeaderAnalysis) : List String :=
  ha.deprecated.map (fun h => s!"Remove deprecated header: {h}")

/-- Spec section: CSP issue remarks. -/
def spec_rec_csp (ha : HeaderAnalysis) : List String :=
  ha.csp_issues.map (fun i => s!"CSP issue: {i}")

/-- Spec section: cookie issue remarks. -/
def spec_rec_cookie (ha : HeaderAnalysis) : List String :=
  ha.cookie_issues.map (fun i => s!"Cookie security issue: {i}")

/-- Spec section: CORS issue remarks. -/
def spec_rec_cors (ha : HeaderAnalysis) : List String :=
  ha.cors_issues.map (fun i => s!"CORS issue: {i}")

/-- Spec section: HSTS issue remarks. -/
def spec_rec_hsts (ha : HeaderAnalysis) : List String :=
  ha.hsts_issues.map (fun i => s!"HSTS issue: {i}")

/-- Spec section: CMS issue remarks, present only when CMS detection has
fired. -/
def spec_rec_cms (ha : HeaderAnalysis) : List String :=
  match ha.wordpress_issues with
  | some issues => issues.map (fun i => s!"WordPress issue: {i}")
  | none => []

/-- Spec section: one combined weak-cipher message naming all weak
ciphers, present only when weak ciphers were found. -/
def spec_rec_weak_ciphers (sa : TLSAnalysis) : List String :=
  if !sa.weak_ciphers.isEmpty then
    ["Disable weak cipher suites: " ++ String.intercalate ", " sa.weak_ciphers]
  else []

/-- Spec section: the compression-disable remediation. -/
def spec_rec_compression (sa : TLSAnalysis) : List String :=
  if sa.compression_enabled then
    ["Disable TLS compression (CRIME vulnerability risk)"]
  else []

/-- Spec section: the TLS-error remediation, present exactly when the
probe failed. -/
def spec_rec_tls_error (sa : TLSAnalysis) : List String :=
  match sa.error with
  | some e => [s!"Fix SSL error: {e}"]
  | none => []

/-! Helper lemmas shared by the theorems below. -/

/-- Closed form of the scoring engine: the total is 100 minus every
penalty, floored at 0; each category keeps its own budget minus its own
penalties, floored at 0; the cookie and CORS budgets are never touched. -/
theorem calculate_security_score_eq (ha : HeaderAnalysis) (sa : TLSAnalysis) :
    calculate_security_score ha sa =
      (max (100 - 3 * (ha.missing_essential.length : Int)
            - 2 * (ha.deprecated.length : Int)
            - 2 * ((ha.csp_issues.length : Int) + (ha.cookie_issues.length : Int)
                   + (ha.cors_issues.length : Int) + (ha.hsts_issues.length : Int))
            - 3 * (sa.weak_ciphers.length : Int)
            - (if sa.compression_enabled then 10 else 0)
            - 2 * (((ha.wordpress_issues.getD []).length : Int))) 0,
       { headers := max (40 - 3 * (ha.missing_essential.length : Int)
                         - 2 * (ha.deprecated.length : Int)) 0
         ssl := max (30 - 3 * (sa.weak_ciphers.length : Int)
                     - (if sa.compression_enabled then 10 else 0)) 0
         cookies := 15
         cors := 10
         wordpress := max (5 - 2 * (((ha.wordpress_issues.getD []).length : Int))) 0 }) := by
  unfold calculate_security_score
  rcases hw : sa.weak_ciphers with _ | ⟨c, cs⟩ <;>
    rcases hc : sa.compression_enabled <;>
    rcases hwp : ha.wordpress_issues with _ | issues <;>
      simp [hw, hc, hwp, Prod.ext_iff, ScoreBreakdown.mk.injEq] <;>
      constructor <;> try constructor
  all_goals omega

/-- The threaded essential-header pass computes the filter of the absent
names and leaves the mapping unchanged. -/
theorem filterMissingSt_eq (hs : HeaderSet) (l : List String) :
    filterMissingSt hs l = (l.filter (fun h => !(hasHeader hs h)), hs) := by
  induction l with
  | nil => rfl
  | cons h t ih =>
    simp only [filterMissingSt, readMem, ih, List.filter_cons]
    cases hb : hasHeader hs h <;> simp [hb]

/-- The threaded deprecated-header pass computes the filter of the present
names and leaves the mapping unchanged. -/
theorem filterPresentSt_eq (hs : HeaderSet) (l : List String) :
    filterPresentSt hs l = (l.filter (fun h => hasHeader hs h), hs) := by
  induction l with
  | nil => rfl
  | cons h t ih =>
    simp only [filterPresentSt, readMem, ih, List.filter_cons]

/-- A threaded guarded sub-analysis computes the pure guarded value and
leaves the mapping unchanged. -/
theorem guardedSt_eq (hs : HeaderSet) (k : String) (f : String → List String) :
    guardedSt hs k f =
      ((if hasHeader hs k then f (getHeaderD hs k "") else []), hs) := by
  unfold guardedSt readMem readVal
  cases h : hasHeader hs k <;> simp [h]

/-- The state-threaded header rule engine agrees with the pure one and
returns its input mapping untouched. -/
theorem analyze_headers_st_eq (hs : HeaderSet) :
    analyze_headers_st hs = (analyze_headers hs, hs) := by
  simp only [analyze_headers_st, analyze_headers, check_additional_headers_st,
    check_additional_headers, check_owasp_compliance_st, check_owasp_compliance,
    readMem, readVal, getHeader, filterMissingSt_eq, filterPresentSt_eq,
    guardedSt_eq]

/-- C1: for every header analysis and TLS analysis, the total returned by
`calculate_security_score` equals 100 minus three points per missing
essential header, two per deprecated header, two per CSP, cookie, CORS and
HSTS issue, three per weak cipher, ten when compression is enabled and two
per CMS issue, floored at 0; the csp, cookie, CORS and HSTS penalties are
deducted from the total only, and every breakdown category holds its own
budget minus only its own penalties, clamped at 0 independently of the
total (headers by missing or deprecated, ssl by weak ciphers or
compression, wordpress by CMS issues, cookies and cors untouched). -/
theorem security_score_closed_form (ha : HeaderAnalysis) (sa : TLSAnalysis) :
    (calculate_security_score ha sa).1 =
      max (100 - 3 * (ha.missing_essential.length : Int)
           - 2 * (ha.deprecated.length : Int)
           - 2 * ((ha.csp_issues.length : Int) + (ha.cookie_issues.length : Int)
                  + (ha.cors_issues.length : Int) + (ha.hsts_issues.length : Int))
           - 3 * (sa.weak_ciphers.length : Int)
           - (if sa.compression_enabled then 10 else 0)
           - 2 * (((ha.wordpress_issues.getD []).length : Int))) 0 ∧
    (calculate_security_score ha sa).2 =
      { headers := max (40 - 3 * (ha.missing_essential.length : Int)
                        - 2 * (ha.deprecated.length : Int)) 0
        ssl := max (30 - 3 * (sa.weak_ciphers.length : Int)
                    - (if sa.compression_enabled then 10 else 0)) 0
        cookies := 15
        cors := 10
        wordpress := max (5 - 2 * (((ha.wordpress_issues.getD []).length : Int))) 0 } := by
  rw [calculate_security_score_eq]
  exact ⟨rfl, rfl⟩

/-- C4: for every input the total security score lies in [0, 100] and
every breakdown category lies between 0 and its starting budget. -/
theorem security_score_bounds (ha : HeaderAnalysis) (sa : TLSAnalysis) :
    0 ≤ (calculate_security_score ha sa).1 ∧
    (calculate_security_score ha sa).1 ≤ 100 ∧
    0 ≤ (calculate_security_score ha sa).2.headers ∧
    (calculate_security_score ha sa).2.headers ≤ 40 ∧
    0 ≤ (calculate_security_score ha sa).2.ssl ∧
    (calculate_security_score ha sa).2.ssl ≤ 30 ∧
    0 ≤ (calculate_security_score ha sa).2.cookies ∧
    (calculate_security_score ha sa).2.cookies ≤ 15 ∧
    0 ≤ (calculate_security_score ha sa).2.cors ∧
    (calculate_security_score ha sa).2.cors ≤ 10 ∧
    0 ≤ (calculate_security_score ha sa).2.wordpress ∧
    (calculate_security_score ha sa).2.wordpress ≤ 5 := by
  rw [calculate_security_score_eq]
  cases sa.compression_enabled <;> simp <;> omega

/-- C3: a failed TLS probe degrades: the analysis carries the failure
string in its error field, the weak-cipher list stays empty and the
compression flag stays false, the ssl budget keeps its full 30 points, and
the total score incurs no SSL penalty, using only header-derived
penalties. -/
theorem ssl_probe_failure_degrades (e : String) (ha : HeaderAnalysis) :
    (ssl_scan (.error e)).error = some e ∧
    (ssl_scan (.error e)).weak_ciphers = [] ∧
    (ssl_scan (.error e)).compression_enabled = false ∧
    (calculate_security_score ha (ssl_scan (.error e))).2.ssl = 30 ∧
    (calculate_security_score ha (ssl_scan (.error e))).1 =
      max (100 - 3 * (ha.missing_essential.length : Int)
           - 2 * (ha.deprecated.length : Int)
           - 2 * ((ha.csp_issues.length : Int) + (ha.cookie_issues.length : Int)
                  + (ha.cors_issues.length : Int) + (ha.hsts_issues.length : Int))
           - 2 * (((ha.wordpress_issues.getD []).length : Int))) 0 := by
  refine ⟨rfl, rfl, rfl, ?_, ?_⟩ <;>
    rw [calculate_security_score_eq] <;> simp [ssl_scan]

/-- C5: the risk tier is a pure deterministic function of the score with
closed boundaries on the higher tier: High below 40, Medium from 40 up to
but excluding 70, Low from 70 on; in particular 39 maps to High, 40 to
Medium, 69 to Medium and 70 to Low. -/
theorem risk_level_tiers :
    (∀ s : Int,
      (risk_level_of s = "High" ↔ s < 40) ∧
      (risk_level_of s = "Medium" ↔ 40 ≤ s ∧ s < 70) ∧
      (risk_level_of s = "Low" ↔ 70 ≤ s)) ∧
    risk_level_of 39 = "High" ∧ risk_level_of 40 = "Medium" ∧
    risk_level_of 69 = "Medium" ∧ risk_level_of 70 = "Low" := by
  refine ⟨fun s => ?_, by decide, by decide, by decide, by decide⟩
  unfold risk_level_of
  by_cases h1 : s < 40
  · rw [if_pos h1]
    exact ⟨⟨fun _ => h1, fun _ => rfl⟩,
           iff_of_false (by decide) (by omega),
           iff_of_false (by decide) (by omega)⟩
  · rw [if_neg h1]
    by_cases h2 : s < 70
    · rw [if_pos h2]
      exact ⟨iff_of_false (by decide) h1,
             ⟨fun _ => ⟨by omega, h2⟩, fun _ => rfl⟩,
             iff_of_false (by decide) (by omega)⟩
    · rw [if_neg h2]
      exact ⟨iff_of_false (by decide) (by omega),
             iff_of_false (by decide) (by omega),
             ⟨fun _ => by omega, fun _ => rfl⟩⟩

/-- C6: on a header set holding only a content-security-policy of
default-src \x27self\x27, the rule engine reports the other nine canonical
essential headers missing, in canonical order, and exactly one
missing-directive CSP issue for each of script-src, object-src and
base-uri, with no unsafe-directive or permissive-source issues. -/
theorem csp_only_header_scenario :
    (analyze_headers
        [("content-security-policy", "default-src \x27self\x27")]).missing_essential =
      ["x-content-type-options", "x-frame-options", "strict-transport-security",
       "x-xss-protection", "referrer-policy", "permissions-policy",
       "cross-origin-opener-policy", "cross-origin-embedder-policy",
       "cross-origin-resource-policy"] ∧
    (analyze_headers
        [("content-security-policy", "default-src \x27self\x27")]).csp_issues =
      ["CSP missing important directive: script-src",
       "CSP missing important directive: object-src",
       "CSP missing important directive: base-uri"] := by
  constructor <;> decide

/-- C7: the recommendation builder emits exactly the spec's fixed section
order: missing-header remediations, deprecated-header removals, CSP,
cookie, CORS and HSTS issue remarks, CMS issue remarks, one combined
weak-cipher message naming all weak ciphers, the compression-disable
message, and finally a TLS-error message exactly when the probe failed. -/
theorem recommendations_section_order (ha : HeaderAnalysis) (sa : TLSAnalysis) :
    generate_recommendations ha sa =
      spec_rec_missing ha ++ spec_rec_deprecated ha ++ spec_rec_csp ha
      ++ spec_rec_cookie ha ++ spec_rec_cors ha ++ spec_rec_hsts ha
      ++ spec_rec_cms ha ++ spec_rec_weak_ciphers sa ++ spec_rec_compression sa
      ++ spec_rec_tls_error sa ∧
    (spec_rec_tls_error sa = [] ↔ sa.error = none) := by
  refine ⟨rfl, ?_⟩
  cases h : sa.error <;> simp [spec_rec_tls_error, h]

/-- C8: the header rule engine never mutates its input and is idempotent:
the threaded run returns the input mapping unchanged, a second run on that
returned mapping yields a structurally equal analysis, and the threaded
run agrees with the pure function. -/
theorem analyze_headers_pure_idempotent (hs : HeaderSet) :
    (analyze_headers_st hs).2 = hs ∧
    (analyze_headers_st ((analyze_headers_st hs).2)).1 = (analyze_headers_st hs).1 ∧
    (analyze_headers_st hs).1 = analyze_headers hs := by
  simp [analyze_headers_st_eq]

/-- C2 (code evaluated at the failing input): when the mandatory fetch
fails, the scan aborts, but the request-failure exception is caught by the
enclosing handler of `analyze_website` and re-raised as an analysis error
that embeds the cause text, so no request-failure error ever reaches the
caller. -/
theorem fetch_failure_wrapped_as_analysis_error :
    analyze_website "https://example.com" (.failure "timeout") (.error "probe down")
        [] (.error "no key") "2025-01-01T00:00:00Z" false false =
      .error (.analysisError
        "Analysis failed: Request to target website failed: timeout") ∧
    ∀ m : String,
      analyze_website "https://example.com" (.failure "timeout") (.error "probe down")
          [] (.error "no key") "2025-01-01T00:00:00Z" false false ≠
        .error (.requestFailed m) := by
  constructor
  · rfl
  · intro m h
    have h2 : (Except.error (CoreError.analysisError
          "Analysis failed: Request to target website failed: timeout") :
        Except CoreError ResponseData) =
        Except.error (CoreError.requestFailed m) := h
    simp at h2

/-- C9: every successfully returned result record carries the literal
status code 200, whatever 2xx status the fetched response actually had. -/
theorem status_code_always_200 (url : String) (hs : HeaderSet) (body : String)
    (status_code : Nat) (sslProbe : Except String TLSProbeFacts)
    (dnsResult : DNSFacts) (geminiResult : Except String String)
    (timestamp : String) (ig ds : Bool)
    (h1 : 200 ≤ status_code) (h2 : status_code < 300) :
    ∃ r, analyze_website url (.success hs body status_code) sslProbe dnsResult
        geminiResult timestamp ig ds = .ok r ∧ r.status_code = 200 := by
  have hcond : 200 ≤ status_code ∧ status_code < 300 := ⟨h1, h2⟩
  simp only [analyze_website, fetch_headers_and_content, if_pos hcond]
  exact ⟨_, rfl, rfl⟩

/-- Witness for C9: a fetched 204 response still yields a result record
with status code 200. -/
theorem status_code_always_200_witness :
    200 ≤ 204 ∧ 204 < 300 ∧
    ∃ r, analyze_website "https://example.com"
        (.success [] "" 204) (.error "probe down") [] (.error "no key")
        "2025-01-01T00:00:00Z" false false = .ok r ∧ r.status_code = 200 :=
  ⟨by decide, by decide,
   status_code_always_200 "https://example.com" [] "" 204 (.error "probe down")
     [] (.error "no key") "2025-01-01T00:00:00Z" false false
     (by decide) (by decide)⟩

/-- C10: when the HSTS value mentions max-age but the numeric pattern
finds no value, the numeric check is silently skipped: neither a
missing-max-age nor a short-max-age issue is emitted, leaving the missing
includeSubDomains issue as the only possible one. -/
theorem hsts_nonnumeric_max_age_skips_numeric_check (hsts_header : String)
    (h1 : strIn "max-age" hsts_header = true)
    (h2 : findMaxAge hsts_header.data = none) :
    analyze_hsts hsts_header =
      if strIn "includesubdomains" (strLower hsts_header) then []
      else ["HSTS missing includeSubDomains directive"] := by
  simp only [analyze_hsts, h1, h2, Bool.not_true, if_false]
  cases hI : strIn "includesubdomains" (strLower hsts_header) <;> simp [hI]

/-- Witness for C10: the value max-age=abc mentions max-age, defeats the
numeric pattern, and yields only the missing includeSubDomains issue. -/
theorem hsts_nonnumeric_max_age_witness :
    strIn "max-age" "max-age=abc" = true ∧
    findMaxAge "max-age=abc".data = none ∧
    analyze_hsts "max-age=abc" = ["HSTS missing includeSubDomains directive"] :=
  ⟨by decide, by decide, by
    rw [hsts_nonnumeric_max_age_skips_numeric_check "max-age=abc"
      (by decide) (by decide)]
    decide⟩

end CyberHeaders
